import Mathlib

/-
Verification of the MMMUT admission chatbot's query-routing core
(src/chatbot.py and src/integration.py), shallowly embedded in Lean 4.

Strings are modelled as Lean String / List Char; Python substring tests
(`p in q`), `str.strip`, `str.lower`, and the `re.sub` calls of
`_preprocess_query` are translated into explicit recursive scanners over
character lists.  Python `\s` is modelled by the six ASCII whitespace
characters and `\w` by ASCII alphanumerics plus underscore (the data the
program feeds these functions is ASCII).  Wall-clock timestamps are
modelled as natural-number seconds where they matter (session ledger) and
omitted where no claim mentions them (response envelopes).
-/

namespace MMMUT

/-- ASCII whitespace, the characters Python's `\s` matches on ASCII text. -/
def isSpaceC (c : Char) : Bool :=
  c = ' ' || c = '\t' || c = '\n' || c = '\r' || c = '\x0b' || c = '\x0c'

/-- ASCII word characters, Python's `\w` on ASCII text. -/
def isWordC (c : Char) : Bool :=
  ('a' ≤ c && c ≤ 'z') || ('A' ≤ c && c ≤ 'Z') || ('0' ≤ c && c ≤ '9') || c = '_'

/-- Does the first list occur at the head of the second? -/
def lead : List Char → List Char → Bool
  | [], _ => true
  | _ :: _, [] => false
  | a :: as, b :: bs => (a = b) && lead as bs

/-- Does the needle `p` occur contiguously anywhere in the haystack?
Models Python's `p in q` on strings (the empty needle always occurs). -/
def hasSub (p : List Char) : List Char → Bool
  | [] => lead p []
  | c :: t => lead p (c :: t) || hasSub p t

/-- Python `p in q` for strings. -/
def substrB (p q : String) : Bool := hasSub p.data q.data

/-- Python `str.strip()` restricted to ASCII whitespace. -/
def stripWs (s : List Char) : List Char :=
  ((s.dropWhile isSpaceC).reverse.dropWhile isSpaceC).reverse

/-- Scanner for whitespace collapsing: `inRun` records whether the
previous character belonged to a whitespace run already rewritten to a
single space. -/
def collapseGo (inRun : Bool) : List Char → List Char
  | [] => []
  | c :: r =>
    if isSpaceC c then
      (if inRun then collapseGo true r else ' ' :: collapseGo true r)
    else c :: collapseGo false r

/-- Model of `re.sub(r'\s+', ' ', s)`: replace each maximal whitespace run
by one space. -/
def collapseWs (s : List Char) : List Char := collapseGo false s

/-- Model of `re.sub(r'[^\w\s\-\.]', ' ', s)`: replace every character outside
word characters, whitespace, hyphen and period by a space. -/
def charStrip (s : List Char) : List Char :=
  s.map (fun c => if isWordC c || isSpaceC c || c = '-' || c = '.' then c else ' ')

/-- Python `str.lower()` on ASCII text. -/
def lowerS (s : List Char) : List Char := s.map Char.toLower

/-- Length of the leading whitespace run of `s`. -/
def runLen (s : List Char) : Nat := (s.takeWhile isSpaceC).length

/-- Match `abbr` at the head of `s`, requiring a `\b` after it: the
character following the literal, if any, must not be a word character.
(The `\b` before it is handled by the scanner's previous-character flag.)
Returns the number of characters consumed. -/
def matchAbbrLen (abbr : List Char) (s : List Char) : Option Nat :=
  if lead abbr s then
    match s.drop abbr.length with
    | [] => some abbr.length
    | c :: _ => if isWordC c then none else some abbr.length
  else none

/-- Match `\s+ w₁ \s+ w₂ … \s+` at the head of `s` (the word list may be
empty, leaving just a trailing maximal `\s+`).  Returns consumed length. -/
def matchTailLen : List (List Char) → List Char → Option Nat
  | ws, s =>
    let k := runLen s
    if k = 0 then none
    else
      match ws with
      | [] => some k
      | w :: rest =>
        let s2 := s.drop k
        if lead w s2 then
          (matchTailLen rest (s2.drop w.length)).map (fun m => k + w.length + m)
        else none

/-- Match `w₁ \s+ w₂ \s+ … \s+ wₙ \s+` at the head of `s` (the question
patterns of `_preprocess_query`; the leading `\b` is the scanner's job).
Returns consumed length. -/
def matchPatLen (w1 : List Char) (ws : List (List Char)) (s : List Char) : Option Nat :=
  if lead w1 s then (matchTailLen ws (s.drop w1.length)).map (fun m => w1.length + m) else none

/-- The generic `re.sub` scanner for patterns that begin with `\b` followed
by a word character.  `matcher s` reports how many characters a match
starting at the head of `s` consumes; `prevW` says whether the previously
scanned character was a word character (so a `\b` holds exactly when
`prevW = false`); `contW` is the word-character status of the last
character any match consumes, used to continue the scan.  The replacement
is emitted without being rescanned, exactly as `re.sub` behaves. -/
def subScanF (matcher : List Char → Option Nat) (repl : List Char) (contW : Bool) :
    Nat → Bool → List Char → List Char
  | 0, _, s => s
  | _ + 1, _, [] => []
  | fuel + 1, prevW, c :: rest =>
    if prevW then c :: subScanF matcher repl contW fuel (isWordC c) rest
    else
      match matcher (c :: rest) with
      | some (k + 1) =>
        repl ++ subScanF matcher repl contW fuel contW ((c :: rest).drop (k + 1))
      | _ => c :: subScanF matcher repl contW fuel (isWordC c) rest

/-- The scanner run with provably sufficient fuel (every step consumes at
least one character; `subScanF_fuel_irrelevant` below certifies that the
fuel parameter does not influence the result). -/
def subScan (matcher : List Char → Option Nat) (repl : List Char) (contW : Bool)
    (prevW : Bool) (s : List Char) : List Char :=
  subScanF matcher repl contW (s.length + 1) prevW s

/-- The abbreviation table of `_preprocess_query`, in dict insertion order. -/
def abbreviations : List (String × String) :=
  [("cse", "computer science engineering"),
   ("ece", "electronics and communication engineering"),
   ("eee", "electrical and electronics engineering"),
   ("ee", "electrical engineering"),
   ("me", "mechanical engineering"),
   ("ce", "civil engineering"),
   ("it", "information technology"),
   ("btech", "bachelor of technology"),
   ("b.tech", "bachelor of technology"),
   ("mtech", "master of technology"),
   ("m.tech", "master of technology"),
   ("phd", "doctor of philosophy"),
   ("ph.d", "doctor of philosophy"),
   ("mmmut", "madan mohan malaviya university of technology"),
   ("gorakhpur", "gorakhpur uttar pradesh"),
   ("up", "uttar pradesh")]

/-- One pass of `re.sub(r'\b' + re.escape(abbr) + r'\b', full, s)`.  Every
abbreviation ends in a word character, so after a match the scan continues
with that word-character status. -/
def subAbbrev (abbr full : String) (s : List Char) : List Char :=
  subScan (matchAbbrLen abbr.data) full.data
    (match abbr.data.getLast? with
     | some c => isWordC c
     | none => false)
    false s

/-- The abbreviation-expansion stage: the table applied sequentially. -/
def applyAbbrevs (s : List Char) : List Char :=
  abbreviations.foldl (fun acc ab => subAbbrev ab.1 ab.2 acc) s

/-- The question-pattern table of `_preprocess_query`: each pattern is
`\b w₁ \s+ w₂ \s+ … \s+` with its replacement, in dict insertion order. -/
def questionPatterns : List (List String × String) :=
  [(["what", "is", "the"], "tell me about the "),
   (["how", "much"], "what is the cost of "),
   (["when", "is"], "what are the dates for "),
   (["where", "is"], "what is the location of "),
   (["can", "i"], "am i eligible for "),
   (["do", "you", "have"], "does mmmut offer ")]

/-- One pass of `re.sub` for a question pattern.  A match always ends in
whitespace (the trailing `\s+`), so the scan continues with a
non-word-character status. -/
def subPattern (words : List String) (repl : String) (s : List Char) : List Char :=
  match words with
  | [] => s
  | w :: ws => subScan (matchPatLen w.data (ws.map String.data)) repl.data false false s

/-- The question-pattern rewriting stage: the table applied sequentially. -/
def applyPatterns (s : List Char) : List Char :=
  questionPatterns.foldl (fun acc qp => subPattern qp.1 qp.2 acc) s

/-- Translation of `_preprocess_query` (src/chatbot.py lines 173-226): strip, return
early when empty, lowercase, collapse whitespace, strip characters outside
`[\w\s\-\.]` to spaces, expand abbreviations on word boundaries, then apply
the ordered question-pattern rewrites. -/
def preprocessQuery (query : String) : String :=
  if stripWs query.data = [] then String.mk (stripWs query.data)
  else
    String.mk (applyPatterns (applyAbbrevs (charStrip (collapseWs (lowerS (stripWs query.data))))))

/-- The knowledge store loaded by `_load_data`.  Category data values are
the already-serialized `json.dumps` output of each category's `data` dict;
the empty string models an empty/absent dict (Python falsiness).  FAQs are
(question, answer) pairs. -/
structure Store where
  categories : List (String × String)
  quickResponses : List (String × String)
  faqs : List (String × String)
  systemPrompt : String
deriving Repr, DecidableEq

/-- Python `dict.get(k, d)` over an association list. -/
def getD (l : List (String × String)) (k d : String) : String :=
  (List.lookup k l).getD d

/-- The greeting phrase list of `_check_quick_responses`. -/
def greetingPatterns : List String :=
  ["hello", "hi", "hey", "good morning", "good afternoon", "good evening",
   "namaste", "greetings", "start", "begin", "help me"]

/-- The category keyword table of `_check_quick_responses`, in dict
insertion order. -/
def categoryPatterns : List (String × List String) :=
  [("courses",
    ["course", "program", "branch", "stream", "what courses", "engineering",
     "btech", "b.tech", "degree", "specialization", "department"]),
   ("eligibility",
    ["eligibility", "criteria", "qualification", "requirement", "marks",
     "percentage", "cutoff", "cut off", "minimum marks", "qualify"]),
   ("fees",
    ["fee", "cost", "payment", "how much", "price", "tuition",
     "scholarship", "financial aid", "installment", "money"]),
   ("dates",
    ["date", "deadline", "when", "schedule", "timeline", "last date",
     "application date", "admission date", "important dates"]),
   ("contact",
    ["contact", "phone", "email", "address", "reach", "office",
     "helpline", "support", "call", "write"]),
   ("facilities",
    ["facility", "hostel", "library", "lab", "infrastructure",
     "campus", "accommodation", "mess", "wifi", "sports"]),
   ("placement",
    ["placement", "job", "career", "salary", "package", "company",
     "recruitment", "internship", "employment"]),
   ("location",
    ["where", "location", "address", "situated", "gorakhpur",
     "how to reach", "directions"])]

/-- Model of `sum(1 for pattern in patterns if pattern in query)`. -/
def categoryScore (query : String) (patterns : List String) : Nat :=
  (patterns.filter (fun p => substrB p query)).length

/-- The default greeting used when no `greeting` template is registered. -/
def defaultGreeting : String :=
  "Hello! Welcome to MMMUT Admission Help Desk. I\x27m here to assist you with all your admission-related queries. How can I help you today?"

/-- Translation of `_check_quick_responses` (src/chatbot.py lines 228-290): greeting
substring check first; otherwise fold over the category table keeping the
first category with a strictly higher score, and return its registered
template when the best score is positive (Python's truthiness test on the
looked-up template makes an empty-string template count as unregistered;
the truthiness test on `best_match` itself always passes because every
category name in the table is a non-empty literal). -/
def checkQuickResponses (st : Store) (query : String) : Option String :=
  if greetingPatterns.any (fun p => substrB p query) then
    some (getD st.quickResponses "greeting" defaultGreeting)
  else
    match categoryPatterns.foldl
        (fun acc cp =>
          if categoryScore query cp.2 > acc.2 then (some cp.1, categoryScore query cp.2) else acc)
        ((none : Option String), 0) with
    | (some c, bs) =>
      if bs > 0 then
        match List.lookup c st.quickResponses with
        | some r => if r ≠ "" then some r else none
        | none => none
      else none
    | (none, _) => none

/-- Spec-side: the highest category score for a query. -/
def specBestScore (query : String) : Nat :=
  (categoryPatterns.map (fun cp => categoryScore query cp.2)).foldr max 0

/-- Spec-side: the first category (in registration order) attaining the
highest score — ties resolve to the first-scanned category. -/
def specBestCategory (query : String) : Option String :=
  (categoryPatterns.find? (fun cp => categoryScore query cp.2 = specBestScore query)).map
    (fun cp => cp.1)

/-- Spec-side description of the no-greeting branch of the matcher: pick
the best-scoring category (first wins ties), and return its registered
template exactly when the best score is positive and a template is
registered for it. -/
def specCategoryMatch (st : Store) (query : String) : Option String :=
  if specBestScore query = 0 then none
  else
    match specBestCategory query with
    | some c =>
      match List.lookup c st.quickResponses with
      | some r => if r ≠ "" then some r else none
      | none => none
    | none => none

/-- Python `str.split()` with no separator: split on whitespace runs,
dropping empty pieces (accumulator holds the current word reversed). -/
def splitAccum : List Char → List Char → List (List Char)
  | [], acc => if acc = [] then [] else [acc.reverse]
  | c :: r, acc =>
    if isSpaceC c then
      (if acc = [] then splitAccum r [] else acc.reverse :: splitAccum r [])
    else splitAccum r (c :: acc)

/-- Python `s.split()`. -/
def pySplit (s : String) : List String := (splitAccum s.data []).map String.mk

/-- Model of `len(set(query.split()) & set(question.lower().split()))`: the number
of distinct query words that also occur in the lowercased question. -/
def wordOverlap (query question : String) : Nat :=
  (((pySplit query).dedup).filter
    (fun w => (pySplit (String.mk (lowerS question.data))).contains w)).length

/-- Stable insertion into a list sorted descending by `key`: the new
element precedes the first entry whose key is less than or equal to its
own (entries already in the list came earlier in the original order). -/
def insertDesc {α : Type} (key : α → Nat) (x : α) : List α → List α
  | [] => [x]
  | y :: ys => if key y ≤ key x then x :: y :: ys else y :: insertDesc key x ys

/-- Stable descending sort by `key`, the result Python's stable
`list.sort(key=..., reverse=True)` produces. -/
def sortDesc {α : Type} (key : α → Nat) (l : List α) : List α :=
  l.foldr (insertDesc key) []

/-- Translation of `_find_relevant_faqs` (src/chatbot.py lines 376-390): pair each FAQ
with its word overlap, keep positive overlaps, stable-sort descending by
overlap, take the first five. -/
def findRelevantFaqs (st : Store) (query : String) : List (String × String) :=
  ((sortDesc (fun p => p.2)
      (st.faqs.filterMap (fun f =>
        if wordOverlap query f.1 > 0 then some (f, wordOverlap query f.1) else none))).take 5).map
    (fun p => p.1)

/-- Spec-side: FAQs with non-empty word intersection, ordered by
descending intersection size with original order preserved among ties,
truncated to the top three. -/
def specTopFaqs (st : Store) (query : String) : List (String × String) :=
  (sortDesc (fun f => wordOverlap query f.1)
    (st.faqs.filter (fun f => wordOverlap query f.1 > 0))).take 3

/-- The category keyword table of `_identify_relevant_categories`. -/
def categoryKeywords : List (String × List String) :=
  [("courses",
    ["course", "program", "branch", "engineering", "btech", "computer science", "mechanical"]),
   ("eligibility",
    ["eligibility", "criteria", "qualification", "marks", "percentage", "requirement"]),
   ("fees", ["fee", "cost", "payment", "money", "scholarship", "financial"]),
   ("important_dates", ["date", "deadline", "when", "schedule", "timeline", "last date"]),
   ("facilities", ["facility", "hostel", "library", "lab", "infrastructure", "campus"]),
   ("placement", ["placement", "job", "career", "salary", "package", "company"]),
   ("contact", ["contact", "phone", "email", "address", "office", "reach"])]

/-- Translation of `_identify_relevant_categories`: categories with any keyword occurring
as a substring of the query; defaults to courses/eligibility/fees. -/
def identifyRelevantCategories (query : String) : List String :=
  let rel := (categoryKeywords.filter (fun ck => ck.2.any (fun k => substrB k query))).map
    (fun ck => ck.1)
  if rel = [] then ["courses", "eligibility", "fees"] else rel

/-- ASCII letters, the cased characters of the program's category names. -/
def isAlphaC (c : Char) : Bool := ('a' ≤ c && c ≤ 'z') || ('A' ≤ c && c ≤ 'Z')

/-- Python `str.title()` on ASCII text: a letter is uppercased when the
previous character is not a letter, lowercased otherwise. -/
def pyTitleGo : Bool → List Char → List Char
  | _, [] => []
  | prevAlpha, c :: r =>
    if isAlphaC c then
      (if prevAlpha then Char.toLower c else Char.toUpper c) :: pyTitleGo true r
    else c :: pyTitleGo false r

/-- Python `str.title()`. -/
def pyTitle (s : String) : String := String.mk (pyTitleGo false s.data)

/-- The university block of `_create_context_for_query`: present exactly
when the category's (serialized) data dict is non-empty. -/
def universityPart (st : Store) : List String :=
  match List.lookup "university" st.categories with
  | some d => if d ≠ "" then ["University Information: " ++ d] else []
  | none => []

/-- One labeled block per relevant category with non-empty data. -/
def categoryParts (st : Store) (query : String) : List String :=
  (identifyRelevantCategories query).filterMap (fun c =>
    match List.lookup c st.categories with
    | some d => if d ≠ "" then some (pyTitle c ++ " Information: " ++ d) else none
    | none => none)

/-- The rendered FAQ block, present when any FAQ is relevant; the top
three relevant FAQs are rendered as Q/A pairs. -/
def faqContextPart (st : Store) (query : String) : List String :=
  if findRelevantFaqs st query = [] then []
  else
    ["Relevant FAQs:\n" ++ String.intercalate "\n"
      (((findRelevantFaqs st query).take 3).map (fun f => "Q: " ++ f.1 ++ "\nA: " ++ f.2))]

/-- The `context_parts` list of `_create_context_for_query`
(src/chatbot.py lines 326-349): the university block, then the relevant
category blocks, then the FAQ block. -/
def contextParts (st : Store) (query : String) : List String :=
  universityPart st ++ categoryParts st query ++ faqContextPart st query

/-- Translation of `_create_context_for_query`: the parts joined by blank lines. -/
def createContextForQuery (st : Store) (query : String) : String :=
  String.intercalate "\n\n" (contextParts st query)

/-- The intent keyword table of `_analyze_query_intent`. -/
def intentKeywords : List (String × List String) :=
  [("course_inquiry", ["course", "program", "branch", "engineering", "btech"]),
   ("eligibility_check", ["eligibility", "qualify", "marks", "percentage", "criteria"]),
   ("fee_information", ["fee", "cost", "payment", "scholarship", "financial"]),
   ("admission_process", ["admission", "apply", "application", "procedure", "form"]),
   ("deadline_inquiry", ["date", "deadline", "when", "last date", "timeline"]),
   ("facility_information", ["hostel", "library", "lab", "facility", "campus"]),
   ("placement_inquiry", ["placement", "job", "career", "company", "salary"]),
   ("contact_request", ["contact", "phone", "email", "address", "reach"]),
   ("general_information", ["about", "university", "college", "mmmut"])]

/-- Translation of `_analyze_query_intent`: the first intent with a keyword occurring in
the lowercased query, rendered via `replace('_', ' ').title()`. -/
def analyzeQueryIntent (query : String) : String :=
  let ql := String.mk (lowerS query.data)
  match intentKeywords.find? (fun ik => ik.2.any (fun k => substrB k ql)) with
  | some ik => pyTitle (String.mk (ik.1.data.map (fun c => if c = '_' then ' ' else c)))
  | none => "General Inquiry"

/-- The mojibake bullet character sequence the source file contains. -/
def promptBullet : String := "â€¢"

/-- Translation of `_create_prompt` (src/chatbot.py lines 392-435): the fixed f-string,
with the system prompt, context, query, intent and complexity hint
interpolated.  The source file's emoji bytes are double-encoded mojibake;
they are reproduced here with unicode escapes. -/
def createPrompt (st : Store) (query context : String) : String :=
  let queryIntent := analyzeQueryIntent query
  let queryComplexity :=
    if (pySplit query).length > 8 then "comprehensive and detailed" else "clear and focused"
  "\n" ++ st.systemPrompt ++
  "\n\nCONVERSATION CONTEXT:\nYou are assisting a prospective student with MMMUT admission queries. Provide helpful, accurate, and encouraging responses.\n\nKNOWLEDGE BASE:\n" ++
  context ++
  "\n\nSTUDENT\x27S QUESTION: \"" ++ query ++
  "\"\n\nRESPONSE GUIDELINES:\nðŸŽ¯ **Intent**: " ++ queryIntent ++
  "\nðŸ“ **Style**: " ++ queryComplexity ++
  "\nâœ… **Requirements**:\n   " ++ promptBullet ++
  " Start with a direct answer to their specific question\n   " ++ promptBullet ++
  " Use emojis and formatting to make responses engaging and easy to read\n   " ++ promptBullet ++
  " Provide specific details (numbers, dates, requirements) when available\n   " ++ promptBullet ++
  " Structure information with bullet points or numbered lists for clarity\n   " ++ promptBullet ++
  " Include practical next steps or actionable advice\n   " ++ promptBullet ++
  " If information is incomplete, guide them to official sources\n   " ++ promptBullet ++
  " End with an encouraging note and offer to help with related questions\n\nFORMATTING EXAMPLES:\n- Use **bold** for important information\n- Use bullet points (" ++
  promptBullet ++
  ") for lists\n- Use emojis to make content more engaging\n- Use clear section headers when covering multiple topics\n\nRESPONSE TONE:\n- Professional yet friendly and approachable\n- Encouraging and supportive\n- Confident in providing accurate information\n- Helpful in guiding next steps\n\nPlease provide a comprehensive, well-formatted response:\n"

/-- The uniform response contract of `process_query` (timestamps and
per-request metadata carry no claim and are omitted). -/
structure Envelope where
  response : String
  responseType : String
  confidence : ℚ
  sources : List String
  error : Option String
deriving Repr, DecidableEq

/-- The default fallback used when no `fallback` template is registered. -/
def defaultFallback : String :=
  "I\x27m sorry, I\x27m having trouble processing your request right now."

/-- Translation of `_generate_ai_response` (src/chatbot.py lines 292-324), parameterized
by the completion gateway (`self.chat.send_message` followed by
`.text.strip()` on success): assemble context and prompt, call the
gateway; on success an `ai_generated` envelope, on failure the registered
fallback template with confidence 0.1 and the error kept separately. -/
def generateAiResponse (st : Store) (gw : String → Except String String) (query : String) :
    Envelope :=
  match gw (createPrompt st query (createContextForQuery st query)) with
  | Except.ok t =>
    { response := String.mk (stripWs t.data), responseType := "ai_generated",
      confidence := 8 / 10, sources := ["gemini_ai", "admission_data"], error := none }
  | Except.error e =>
    { response := getD st.quickResponses "fallback" defaultFallback,
      responseType := "fallback", confidence := 1 / 10, sources := ["fallback"],
      error := some e }

/-- Translation of `process_query` (src/chatbot.py lines 132-171), response computation:
preprocess, try the quick-response matcher, otherwise generate via the
gateway.  (The conversation-history side effect is modelled separately by
`addToHistory`; query ids, timestamps and session durations carry no
claim.) -/
def processQuery (st : Store) (gw : String → Except String String) (query : String) : Envelope :=
  match checkQuickResponses st (preprocessQuery query) with
  | some r =>
    { response := r, responseType := "quick", confidence := 9 / 10,
      sources := ["quick_responses"], error := none }
  | none => generateAiResponse st gw (preprocessQuery query)

/-- The `/api/chat` handler guard (src/integration.py lines 133-157): the
raw query is stripped; an empty result is rejected with an error before
the orchestrator is ever invoked, otherwise the stripped query is
processed. -/
def chatApi (st : Store) (gw : String → Except String String) (query : String) :
    Except String Envelope :=
  if String.mk (stripWs query.data) = "" then Except.error "Empty query"
  else Except.ok (processQuery st gw (String.mk (stripWs query.data)))

/-- One conversation-history entry (timestamp carries no claim). -/
structure Turn where
  query : String
  response : String
  queryNumber : Nat
deriving Repr, DecidableEq

/-- Translation of `_add_to_history` (src/chatbot.py lines 459-470): append, then keep
only the last ten entries (`history[-10:]`). -/
def addToHistory (h : List Turn) (t : Turn) : List Turn :=
  if 10 < (h ++ [t]).length then (h ++ [t]).drop ((h ++ [t]).length - 10) else h ++ [t]

/-- One session record of `ChatbotIntegration.active_sessions`; times are
natural-number seconds. -/
structure SessionRecord where
  startTime : Nat
  queryCount : Nat
  lastActivity : Nat
deriving Repr, DecidableEq

/-- The integration-layer state mutated by `get_response`. -/
structure IntegState where
  sessions : List (String × SessionRecord)
  requestCount : Nat
deriving Repr, DecidableEq

def emptyIntegState : IntegState := { sessions := [], requestCount := 0 }

/-- The session-tracking part of `get_response` (src/integration.py lines
41-52): create the record on first sight of the session id (Python dict
insertion appends), then increment its query count, refresh its last
activity, and bump the global request counter. -/
def touchSession (now : Nat) (sid : String) (st : IntegState) : IntegState :=
  let sessions0 :=
    if (List.lookup sid st.sessions).isNone then
      st.sessions ++ [(sid, { startTime := now, queryCount := 0, lastActivity := now })]
    else st.sessions
  { sessions := sessions0.map (fun p =>
      if p.1 = sid then (p.1, { p.2 with queryCount := p.2.queryCount + 1, lastActivity := now })
      else p),
    requestCount := st.requestCount + 1 }

/-- Translation of `cleanup_sessions` (src/integration.py lines 75-89): drop every
session whose idle time strictly exceeds `max_inactive_minutes` minutes. -/
def cleanupSessions (now : Nat) (maxInactiveMinutes : Nat) (st : IntegState) : IntegState :=
  { st with sessions :=
      st.sessions.filter (fun p => ¬ (now - p.2.lastActivity > maxInactiveMinutes * 60)) }

/-- The `active_sessions` count reported by `get_integration_stats`. -/
def activeSessions (st : IntegState) : Nat := st.sessions.length

/-- Decidable stage-wise stability: every stage of `_preprocess_query`
leaves the string unchanged.  A string with this property is a fixed point
of the whole pipeline. -/
def normStable (s : String) : Bool :=
  (stripWs s.data == s.data) && (lowerS s.data == s.data) &&
  (collapseWs s.data == s.data) && (charStrip s.data == s.data) &&
  (applyAbbrevs s.data == s.data) && (applyPatterns s.data == s.data)

/-- A small concrete knowledge store used to instantiate theorems with
hypotheses on concrete inputs. -/
def sampleStore : Store :=
  { categories :=
      [("university", "name: Madan Mohan Malaviya University of Technology"),
       ("courses", "undergraduate engineering programs"),
       ("fees", "tuition per year"),
       ("eligibility", "")],
    quickResponses :=
      [("greeting", "Hello! Welcome to MMMUT Admission Help Desk. How can I assist you today?"),
       ("fallback", "I\x27m sorry, I don\x27t have specific information about that."),
       ("courses", "Course quick template"),
       ("fees", "Fee quick template"),
       ("location", "Location quick template")],
    faqs :=
      [("What is the fee structure", "Fee answer"),
       ("Which courses are offered", "Course answer"),
       ("Where is the campus", "Campus answer")],
    systemPrompt := "You are an admission assistant." }

theorem foldBest_snd {α β : Type} (f : α → Nat) (g : α → β) :
    ∀ (l : List α) (b : Option β) (s : Nat),
      (l.foldl (fun acc x => if f x > acc.2 then (some (g x), f x) else acc) (b, s)).2
        = max s ((l.map f).foldr max 0) := by
  intro l
  induction l with
  | nil => intro b s; simp
  | cons x t ih =>
    intro b s
    simp only [List.foldl_cons, List.map_cons, List.foldr_cons]
    by_cases h : f x > s
    · rw [if_pos h, ih]
      omega
    · rw [if_neg h, ih]
      omega

theorem foldBest_const {α β : Type} (f : α → Nat) (g : α → β) :
    ∀ (l : List α) (b : Option β) (s : Nat), (l.map f).foldr max 0 ≤ s →
      l.foldl (fun acc x => if f x > acc.2 then (some (g x), f x) else acc) (b, s) = (b, s) := by
  intro l
  induction l with
  | nil => intro b s _; rfl
  | cons x t ih =>
    intro b s h
    simp only [List.map_cons, List.foldr_cons] at h
    simp only [List.foldl_cons]
    rw [if_neg (by omega)]
    exact ih b s (by omega)

theorem foldBest_fst {α β : Type} (f : α → Nat) (g : α → β) :
    ∀ (l : List α) (b : Option β) (s : Nat), s < (l.map f).foldr max 0 →
      (l.foldl (fun acc x => if f x > acc.2 then (some (g x), f x) else acc) (b, s)).1
        = (l.find? (fun x => f x = (l.map f).foldr max 0)).map g := by
  intro l
  induction l with
  | nil => intro b s h; simp at h
  | cons x t ih =>
    intro b s h
    simp only [List.map_cons, List.foldr_cons] at h ⊢
    simp only [List.foldl_cons]
    by_cases hx : f x > s
    · rw [if_pos hx]
      by_cases hM : (t.map f).foldr max 0 ≤ f x
      · have hMx : max (f x) ((t.map f).foldr max 0) = f x := by omega
        simp only [hMx]
        rw [foldBest_const f g t (some (g x)) (f x) hM]
        rw [List.find?_cons_of_pos _ (by simp)]
        rfl
      · push_neg at hM
        have hMt : max (f x) ((t.map f).foldr max 0) = (t.map f).foldr max 0 := by omega
        simp only [hMt]
        rw [ih (some (g x)) (f x) hM]
        rw [List.find?_cons_of_neg _ (by simp; omega)]
    · rw [if_neg hx]
      have hst : s < (t.map f).foldr max 0 := by omega
      have hMt : max (f x) ((t.map f).foldr max 0) = (t.map f).foldr max 0 := by omega
      simp only [hMt]
      rw [ih b s hst]
      rw [List.find?_cons_of_neg _ (by simp; omega)]

/-- C1: on query texts with no greeting phrase, the quick-response matcher
computes each category's keyword-substring count, picks the best category
scanning in registration order with strict improvement (first-scanned wins
ties), and returns that category's registered template exactly when the
best score is positive and a template is registered; otherwise nothing. -/
theorem category_scoring_matches_spec (st : Store) (q : String)
    (h : greetingPatterns.any (fun p => substrB p q) = false) :
    checkQuickResponses st q = specCategoryMatch st q := by
  unfold checkQuickResponses specCategoryMatch specBestCategory specBestScore
  rw [h]
  rw [if_neg (by simp)]
  generalize categoryPatterns = l
  by_cases h0 : (l.map (fun cp => categoryScore q cp.2)).foldr max 0 = 0
  · rw [foldBest_const (fun cp => categoryScore q cp.2) (fun cp => cp.1) l none 0
      (le_of_eq h0)]
    rw [if_pos h0]
  · have hpos : 0 < (l.map (fun cp => categoryScore q cp.2)).foldr max 0 :=
      Nat.pos_of_ne_zero h0
    have hfold :
        l.foldl
          (fun acc cp =>
            if categoryScore q cp.2 > acc.2 then (some cp.1, categoryScore q cp.2) else acc)
          ((none : Option String), 0)
        = ((l.find?
              (fun cp => categoryScore q cp.2
                = (l.map (fun cp => categoryScore q cp.2)).foldr max 0)).map
            (fun cp => cp.1),
           (l.map (fun cp => categoryScore q cp.2)).foldr max 0) := by
      refine Prod.ext ?_ ?_
      · exact foldBest_fst (fun cp => categoryScore q cp.2) (fun cp => cp.1) l none 0 hpos
      · rw [foldBest_snd (fun cp => categoryScore q cp.2) (fun cp => cp.1) l none 0]
        omega
    rw [hfold, if_neg h0]
    cases hf : l.find?
        (fun cp => categoryScore q cp.2
          = (l.map (fun cp => categoryScore q cp.2)).foldr max 0) with
    | none => rfl
    | some cp =>
      simp only [Option.map_some']
      rw [if_pos hpos]

/-- Witness for C1: "fee structure" contains no greeting phrase, and both
sides agree on it. -/
theorem category_scoring_matches_spec_witness :
    greetingPatterns.any (fun p => substrB p "fee structure") = false ∧
    checkQuickResponses sampleStore "fee structure" = specCategoryMatch sampleStore "fee structure" ∧
    checkQuickResponses sampleStore "fee structure" = some "Fee quick template" :=
  ⟨by decide, category_scoring_matches_spec sampleStore _ (by decide), by decide⟩

/-- C2: for every normalized query text containing any greeting phrase of
the fixed list as a substring, the matcher returns the greeting template
immediately — in particular it never returns a category template for such
a text, even when category keywords are also present. -/
theorem greeting_takes_priority (st : Store) (q : String)
    (h : greetingPatterns.any (fun p => substrB p q) = true) :
    checkQuickResponses st q = some (getD st.quickResponses "greeting" defaultGreeting) := by
  unfold checkQuickResponses
  rw [h]
  rfl

/-- Witness for C2: a concrete text containing the greeting phrase
"hello" together with the category keyword "fee". -/
theorem greeting_takes_priority_witness :
    greetingPatterns.any (fun p => substrB p "hello, i need fee details") = true ∧
    checkQuickResponses sampleStore "hello, i need fee details" =
      some "Hello! Welcome to MMMUT Admission Help Desk. How can I assist you today?" :=
  ⟨by decide, (greeting_takes_priority sampleStore _ (by decide)).trans (by decide)⟩

/-- C10: greeting detection is raw substring containment with no
word-boundary check, so any normalized query containing "hi" inside a
longer word (such as "which") is answered with the greeting template. -/
theorem greeting_substring_inside_word (st : Store) (q : String)
    (h : substrB "hi" q = true) :
    checkQuickResponses st q = some (getD st.quickResponses "greeting" defaultGreeting) := by
  have hany : greetingPatterns.any (fun p => substrB p q) = true := by
    rw [List.any_eq_true]
    exact ⟨"hi", by decide, h⟩
  unfold checkQuickResponses
  rw [hany]
  rfl

/-- Witness for C10: "which engineering course is best" is not a greeting
and contains category keywords, yet the greeting template is returned
because "which" contains "hi". -/
theorem greeting_substring_inside_word_witness :
    substrB "hi" "which engineering course is best" = true ∧
    substrB "course" "which engineering course is best" = true ∧
    checkQuickResponses sampleStore "which engineering course is best" =
      some "Hello! Welcome to MMMUT Admission Help Desk. How can I assist you today?" :=
  ⟨by decide, by decide,
   (greeting_substring_inside_word sampleStore _ (by decide)).trans (by decide)⟩

/-- C5: whenever the completion-service call fails on the generated
prompt, the envelope has kind fallback, confidence 0.1, sources
["fallback"], the configured fallback template as response text, and the
failure description in the separate error field; no exception escapes. -/
theorem gateway_failure_yields_fallback (st : Store) (gw : String → Except String String)
    (q e : String)
    (h : gw (createPrompt st q (createContextForQuery st q)) = Except.error e) :
    generateAiResponse st gw q =
      { response := getD st.quickResponses "fallback" defaultFallback,
        responseType := "fallback", confidence := 1 / 10,
        sources := ["fallback"], error := some e } := by
  unfold generateAiResponse
  rw [h]

/-- Witness for C5: a gateway stubbed to fail with "quota exceeded". -/
theorem gateway_failure_yields_fallback_witness :
    ((fun _ => Except.error "quota exceeded") : String → Except String String)
        (createPrompt sampleStore "placement statistics"
          (createContextForQuery sampleStore "placement statistics")) =
      Except.error "quota exceeded" ∧
    generateAiResponse sampleStore (fun _ => Except.error "quota exceeded")
        "placement statistics" =
      { response := "I\x27m sorry, I don\x27t have specific information about that.",
        responseType := "fallback", confidence := 1 / 10,
        sources := ["fallback"], error := some "quota exceeded" } :=
  ⟨rfl, by
    rw [gateway_failure_yields_fallback sampleStore
      (fun _ => Except.error "quota exceeded") "placement statistics" "quota exceeded" rfl]
    rfl⟩

/-- C4 counterexample: normalization is not idempotent.  On "a," the
punctuation-stripping stage (which runs after whitespace collapsing)
rewrites the comma to a space, leaving a trailing space that only a second
pass removes. -/
theorem preprocess_not_idempotent :
    preprocessQuery "a," = "a " ∧ preprocessQuery "a " = "a" ∧
    preprocessQuery (preprocessQuery "a,") ≠ preprocessQuery "a," := by
  refine ⟨by decide, by decide, by decide⟩

/-- C4 (amended): normalization is not idempotent in general; it is
idempotent on every input whose normalized form is stage-wise stable —
left unchanged by trimming, lowercasing, whitespace collapsing, character
stripping, abbreviation expansion and the question-pattern rewrites. -/
theorem preprocess_idempotent_of_stable (x : String)
    (h : normStable (preprocessQuery x) = true) :
    preprocessQuery (preprocessQuery x) = preprocessQuery x := by
  set s := preprocessQuery x with hs
  simp only [normStable, Bool.and_eq_true, beq_iff_eq] at h
  obtain ⟨⟨⟨⟨⟨h1, h2⟩, h3⟩, h4⟩, h5⟩, h6⟩ := h
  show preprocessQuery s = s
  unfold preprocessQuery
  rw [h1]
  by_cases he : s.data = []
  · rw [if_pos he]
  · rw [if_neg he, h2, h3, h4, h5, h6]

/-- Witness for C4 (amended): "fee structure" normalizes to itself over
both passes. -/
theorem preprocess_idempotent_of_stable_witness :
    normStable (preprocessQuery "fee structure") = true ∧
    preprocessQuery (preprocessQuery "fee structure") = preprocessQuery "fee structure" :=
  ⟨by decide, preprocess_idempotent_of_stable _ (by decide)⟩

/-- C3 counterexample: an empty raw query is not short-circuited by
`process_query`: it reaches AI generation, whose stubbed reply becomes the
returned response with kind ai_generated, not a neutral
"please ask a question" envelope. -/
theorem empty_query_reaches_ai_generation :
    (processQuery sampleStore (fun _ => Except.ok "AI REPLY") "").responseType
        = "ai_generated" ∧
    (processQuery sampleStore (fun _ => Except.ok "AI REPLY") "").response = "AI REPLY" := by
  exact ⟨by decide, by decide⟩

/-- C3 (amended): empty or whitespace-only queries are not
short-circuited by the orchestrator: preprocessing yields the empty
string, the quick-response matcher finds nothing, and the AI-generation
path is invoked on the empty string; only the web API layer rejects such
queries with an "Empty query" error before the orchestrator runs. -/
theorem whitespace_query_not_short_circuited (q : String)
    (h : q.data.all isSpaceC = true) :
    preprocessQuery q = "" ∧
    (∀ st : Store, checkQuickResponses st "" = none) ∧
    (∀ (st : Store) (gw : String → Except String String),
        processQuery st gw q = generateAiResponse st gw "") ∧
    (∀ (st : Store) (gw : String → Except String String),
        chatApi st gw q = Except.error "Empty query") := by
  have hdrop : q.data.dropWhile isSpaceC = [] := by
    rw [List.dropWhile_eq_nil_iff]
    intro x hx
    exact List.all_eq_true.mp h x hx
  have hstrip : stripWs q.data = [] := by
    simp [stripWs, hdrop]
  have hpre : preprocessQuery q = "" := by
    unfold preprocessQuery
    rw [hstrip]
    simp
  have hcheck : ∀ st : Store, checkQuickResponses st "" = none := by
    intro st
    have hg : greetingPatterns.any (fun p => substrB p "") = false := by decide
    have hf : categoryPatterns.foldl
        (fun acc cp =>
          if categoryScore "" cp.2 > acc.2 then (some cp.1, categoryScore "" cp.2) else acc)
        ((none : Option String), 0) = ((none : Option String), 0) := by decide
    simp [checkQuickResponses, hg, hf]
  refine ⟨hpre, hcheck, ?_, ?_⟩
  · intro st gw
    unfold processQuery
    rw [hpre, hcheck st]
  · intro st gw
    unfold chatApi
    rw [hstrip]
    simp

/-- Witness for C3 (amended) at the whitespace-only query "   ". -/
theorem whitespace_query_not_short_circuited_witness :
    "   ".data.all isSpaceC = true ∧
    preprocessQuery "   " = "" ∧
    chatApi sampleStore (fun _ => Except.ok "PING") "   " = Except.error "Empty query" :=
  ⟨by decide, (whitespace_query_not_short_circuited _ (by decide)).1,
   (whitespace_query_not_short_circuited _ (by decide)).2.2.2 sampleStore _⟩

theorem subScanF_fuel_irrelevant (matcher : List Char → Option Nat) (repl : List Char)
    (contW : Bool) :
    ∀ (f1 f2 : Nat) (prevW : Bool) (s : List Char), s.length < f1 → s.length < f2 →
      subScanF matcher repl contW f1 prevW s = subScanF matcher repl contW f2 prevW s := by
  intro f1
  induction f1 with
  | zero => intro f2 prevW s h1 h2; exact absurd h1 (Nat.not_lt_zero _)
  | succ g ih =>
    intro f2 prevW s h1 h2
    cases f2 with
    | zero => exact absurd h2 (Nat.not_lt_zero _)
    | succ g2 =>
      cases s with
      | nil => rfl
      | cons c rest =>
        simp only [List.length_cons] at h1 h2
        simp only [subScanF]
        by_cases hw : prevW
        · rw [if_pos hw, if_pos hw]
          exact congrArg (c :: ·) (ih g2 (isWordC c) rest (by omega) (by omega))
        · rw [if_neg hw, if_neg hw]
          cases hm : matcher (c :: rest) with
          | none =>
            simp only
            exact congrArg (c :: ·) (ih g2 (isWordC c) rest (by omega) (by omega))
          | some k =>
            cases k with
            | zero =>
              simp only
              exact congrArg (c :: ·) (ih g2 (isWordC c) rest (by omega) (by omega))
            | succ k =>
              simp only
              refine congrArg (repl ++ ·) (ih g2 contW ((c :: rest).drop (k + 1)) ?_ ?_) <;>
                simp [List.length_drop] <;> omega

/-- C6: for every query, when the university category's data is present
and non-empty, the assembled context's parts list begins with the
university block — before any category block and before the FAQ block —
and the context string is the blank-line join starting with it. -/
theorem university_block_first (st : Store) (q : String) (d : String)
    (h1 : List.lookup "university" st.categories = some d) (h2 : d ≠ "") :
    ∃ rest, contextParts st q = ("University Information: " ++ d) :: rest ∧
      createContextForQuery st q
        = String.intercalate "\n\n" (("University Information: " ++ d) :: rest) := by
  have hu : universityPart st = ["University Information: " ++ d] := by
    unfold universityPart
    rw [h1]
    dsimp only
    rw [if_pos h2]
  refine ⟨categoryParts st q ++ faqContextPart st q, ?_, ?_⟩
  · unfold contextParts
    rw [hu]
    simp
  · unfold createContextForQuery contextParts
    rw [hu]
    simp

/-- Witness for C6 at the sample store and a fee query. -/
theorem university_block_first_witness :
    List.lookup "university" sampleStore.categories
        = some "name: Madan Mohan Malaviya University of Technology" ∧
    ∃ rest, contextParts sampleStore "hostel fee" =
        ("University Information: name: Madan Mohan Malaviya University of Technology") :: rest ∧
      createContextForQuery sampleStore "hostel fee" =
        String.intercalate "\n\n"
          (("University Information: name: Madan Mohan Malaviya University of Technology") :: rest) :=
  ⟨rfl, university_block_first sampleStore "hostel fee" _ rfl (by decide)⟩

theorem insertDesc_overlap_pair (q : String) (x : String × String) :
    ∀ l : List (String × String),
      insertDesc (fun p => p.2) (x, wordOverlap q x.1)
          (l.map (fun f => (f, wordOverlap q f.1)))
        = (insertDesc (fun f => wordOverlap q f.1) x l).map (fun f => (f, wordOverlap q f.1)) := by
  intro l
  induction l with
  | nil => rfl
  | cons y t ih =>
    simp only [List.map_cons, insertDesc]
    by_cases hk : wordOverlap q y.1 ≤ wordOverlap q x.1
    · rw [if_pos hk, if_pos hk]
      simp
    · rw [if_neg hk, if_neg hk]
      simp only [List.map_cons, ih]

theorem sortDesc_overlap_pair (q : String) :
    ∀ l : List (String × String),
      sortDesc (fun p => p.2) (l.map (fun f => (f, wordOverlap q f.1)))
        = (sortDesc (fun f => wordOverlap q f.1) l).map (fun f => (f, wordOverlap q f.1)) := by
  intro l
  induction l with
  | nil => rfl
  | cons y t ih =>
    simp only [List.map_cons, sortDesc, List.foldr_cons]
    show insertDesc (fun p => p.2) (y, wordOverlap q y.1)
        (sortDesc (fun p => p.2) (t.map (fun f => (f, wordOverlap q f.1)))) = _
    rw [ih, insertDesc_overlap_pair]
    rfl

theorem filterMap_overlap_pairs (q : String) :
    ∀ l : List (String × String),
      l.filterMap (fun f =>
          if wordOverlap q f.1 > 0 then some (f, wordOverlap q f.1) else none)
        = (l.filter (fun f => wordOverlap q f.1 > 0)).map (fun f => (f, wordOverlap q f.1)) := by
  intro l
  induction l with
  | nil => rfl
  | cons f t ih =>
    rw [List.filterMap_cons, List.filter_cons]
    by_cases hf : wordOverlap q f.1 > 0
    · rw [if_pos hf, if_pos (by simpa using hf)]
      simp only [List.map_cons, ih]
    · rw [if_neg hf, if_neg (by simpa using hf)]
      exact ih

theorem mem_insertDesc {α : Type} (k : α → Nat) (x : α) :
    ∀ (l : List α) (y : α), y ∈ insertDesc k x l → y = x ∨ y ∈ l := by
  intro l
  induction l with
  | nil => intro y hy; simp [insertDesc] at hy; exact Or.inl hy
  | cons z t ih =>
    intro y hy
    simp only [insertDesc] at hy
    by_cases hk : k z ≤ k x
    · rw [if_pos hk] at hy
      exact (List.mem_cons.mp hy).imp_right id
    · rw [if_neg hk] at hy
      rcases List.mem_cons.mp hy with h | h
      · exact Or.inr (by simp [h])
      · rcases ih y h with h2 | h2
        · exact Or.inl h2
        · exact Or.inr (by simp [h2])

theorem pairwise_insertDesc {α : Type} (k : α → Nat) (x : α) :
    ∀ l : List α, List.Pairwise (fun a b => k b ≤ k a) l →
      List.Pairwise (fun a b => k b ≤ k a) (insertDesc k x l) := by
  intro l
  induction l with
  | nil => intro _; simp [insertDesc]
  | cons z t ih =>
    intro hp
    rw [List.pairwise_cons] at hp
    simp only [insertDesc]
    by_cases hk : k z ≤ k x
    · rw [if_pos hk]
      refine List.pairwise_cons.mpr ⟨?_, List.pairwise_cons.mpr hp⟩
      intro y hy
      rcases List.mem_cons.mp hy with h | h
      · exact h ▸ hk
      · exact le_trans (hp.1 y h) hk
    · rw [if_neg hk]
      refine List.pairwise_cons.mpr ⟨?_, ih hp.2⟩
      intro y hy
      rcases mem_insertDesc k x t y hy with h | h
      · exact h ▸ le_of_not_le hk
      · exact hp.1 y h

theorem sortDesc_pairwise {α : Type} (k : α → Nat) :
    ∀ l : List α, List.Pairwise (fun a b => k b ≤ k a) (sortDesc k l) := by
  intro l
  induction l with
  | nil => simp [sortDesc]
  | cons x t ih => exact pairwise_insertDesc k x _ ih

/-- C7: the FAQs rendered into the assembled context are exactly those
with non-empty word-set intersection with the query, stably ordered by
descending intersection size and truncated to the top three; the rendered
list is sorted, so a count-3 FAQ precedes a count-1 FAQ. -/
theorem faq_ranking (st : Store) (q : String) :
    (findRelevantFaqs st q).take 3 = specTopFaqs st q ∧
    List.Pairwise (fun a b => wordOverlap q b.1 ≤ wordOverlap q a.1) (specTopFaqs st q) := by
  constructor
  · unfold findRelevantFaqs specTopFaqs
    rw [filterMap_overlap_pairs q st.faqs]
    rw [sortDesc_overlap_pair q]
    rw [← List.map_take, List.take_take]
    norm_num
    rw [← List.map_take]
    have hcomp : ((fun (p : (String × String) × Nat) => p.1) ∘ fun f => (f, wordOverlap q f.1))
        = fun (f : String × String) => f := rfl
    rw [hcomp]
    simp
  · unfold specTopFaqs
    exact (sortDesc_pairwise (fun (f : String × String) => wordOverlap q f.1) _).sublist
      (List.take_sublist _ _)

theorem foldl_addToHistory_drop :
    ∀ ts : List Turn, ts.foldl addToHistory [] = ts.drop (ts.length - 10) := by
  intro ts
  induction ts using List.reverseRecOn with
  | nil => rfl
  | append_singleton l t ih =>
    rw [List.foldl_append, List.foldl_cons, List.foldl_nil, ih]
    unfold addToHistory
    by_cases hl : l.length ≤ 9
    · have h0 : l.length - 10 = 0 := by omega
      rw [h0, List.drop_zero]
      rw [if_neg (by simp [List.length_append]; omega)]
      have h1 : (l ++ [t]).length - 10 = 0 := by simp [List.length_append]; omega
      rw [h1, List.drop_zero]
    · push_neg at hl
      have hdlen : (l.drop (l.length - 10) ++ [t]).length = 11 := by
        simp [List.length_append, List.length_drop]
        omega
      rw [hdlen]
      rw [if_pos (by omega)]
      have h1110 : (11 : Nat) - 10 = 1 := rfl
      rw [h1110]
      rw [List.drop_append_eq_append_drop, List.drop_drop, List.drop_append_eq_append_drop]
      have e2 : (1 : Nat) - (l.drop (l.length - 10)).length = 0 := by
        simp [List.length_drop]
        omega
      have e3 : (l ++ [t]).length - 10 - l.length = 0 := by
        simp [List.length_append]
      rw [e2, e3, List.drop_zero]
      congr 1
      congr 1
      simp [List.length_append]
      omega

/-- C8: after any sequence of turns the history is the last ten of them
(so its length is capped at ten and appending at capacity evicts the
oldest, FIFO); in particular after eleven turns the length is ten and the
first turn is gone. -/
theorem history_bounded (ts : List Turn) :
    (ts.foldl addToHistory []).length = min ts.length 10 ∧
    ts.foldl addToHistory [] = ts.drop (ts.length - 10) ∧
    (∀ t0 rest, ts = t0 :: rest → rest.length = 10 → t0 ∉ rest →
      t0 ∉ ts.foldl addToHistory []) := by
  refine ⟨?_, foldl_addToHistory_drop ts, ?_⟩
  · rw [foldl_addToHistory_drop ts, List.length_drop]
    omega
  · intro t0 rest hts hlen hmem
    rw [foldl_addToHistory_drop ts, hts]
    have h1 : (t0 :: rest).length - 10 = 1 := by simp [hlen]
    rw [h1, List.drop_one, List.tail_cons]
    exact hmem

/-- Witness for C8: eleven pairwise-distinct turns; the first is evicted. -/
theorem history_bounded_witness :
    (⟨"q0", "r0", 0⟩ : Turn) ∉
      ([(⟨"q0", "r0", 0⟩ : Turn), ⟨"q1", "r1", 1⟩, ⟨"q2", "r2", 2⟩, ⟨"q3", "r3", 3⟩,
        ⟨"q4", "r4", 4⟩, ⟨"q5", "r5", 5⟩, ⟨"q6", "r6", 6⟩, ⟨"q7", "r7", 7⟩,
        ⟨"q8", "r8", 8⟩, ⟨"q9", "r9", 9⟩, ⟨"q10", "r10", 10⟩].foldl addToHistory []) :=
  (history_bounded _).2.2 _ _ rfl (by decide) (by decide)

theorem lookup_none_filter {β : Type} (sid : String) (p : String × β → Bool) :
    ∀ l : List (String × β), List.lookup sid l = none →
      List.lookup sid (l.filter p) = none := by
  intro l
  induction l with
  | nil => intro _; rfl
  | cons kv t ih =>
    intro h
    obtain ⟨k, v⟩ := kv
    by_cases hk : sid == k
    · simp [List.lookup, hk] at h
    · simp only [List.lookup, hk] at h
      rw [List.filter_cons]
      by_cases hp : p (k, v)
      · rw [if_pos hp]
        simp only [List.lookup, hk]
        exact ih h
      · rw [if_neg hp]
        exact ih h

theorem lookup_none_of_key_not_mem {β : Type} (sid : String) :
    ∀ l : List (String × β), sid ∉ l.map Prod.fst → List.lookup sid l = none := by
  intro l
  induction l with
  | nil => intro _; rfl
  | cons kv t ih =>
    intro h
    obtain ⟨k, v⟩ := kv
    simp only [List.map_cons, List.mem_cons] at h
    push_neg at h
    have hk : (sid == k) = false := by simp [h.1]
    simp only [List.lookup, hk]
    exact ih h.2

theorem lookup_filter_none {β : Type} (sid : String) (p : String × β → Bool) (r : β) :
    ∀ l : List (String × β), (l.map Prod.fst).Nodup →
      List.lookup sid l = some r → p (sid, r) = false →
      List.lookup sid (l.filter p) = none := by
  intro l
  induction l with
  | nil => intro _ h _; simp [List.lookup] at h
  | cons kv t ih =>
    intro hnd h hp
    obtain ⟨k, v⟩ := kv
    simp only [List.map_cons, List.nodup_cons] at hnd
    by_cases hk : sid = k
    · subst hk
      have hv : v = r := by simpa [List.lookup] using h
      subst hv
      rw [List.filter_cons, if_neg (by simp [hp])]
      exact lookup_none_filter sid p t (lookup_none_of_key_not_mem sid t hnd.1)
    · have hkb : (sid == k) = false := by simp [hk]
      simp only [List.lookup, hkb] at h
      rw [List.filter_cons]
      by_cases hpk : p (k, v)
      · rw [if_pos hpk]
        simp only [List.lookup, hkb]
        exact ih hnd.2 h hp
      · rw [if_neg hpk]
        exact ih hnd.2 h hp

/-- C9: touching session "s1" three times yields exactly one active
session whose query count is three; and any session whose idle time
strictly exceeds the threshold (in minutes, default 30) is removed from
the session map by a cleanup sweep. -/
theorem session_ledger_behavior (t1 t2 t3 : Nat) :
    (activeSessions
        (touchSession t3 "s1" (touchSession t2 "s1" (touchSession t1 "s1" emptyIntegState))) = 1 ∧
      List.lookup "s1"
        (touchSession t3 "s1"
          (touchSession t2 "s1" (touchSession t1 "s1" emptyIntegState))).sessions
        = some { startTime := t1, queryCount := 3, lastActivity := t3 }) ∧
    (∀ (st : IntegState) (now m : Nat) (sid : String) (r : SessionRecord),
      (st.sessions.map Prod.fst).Nodup →
      List.lookup sid st.sessions = some r →
      now - r.lastActivity > m * 60 →
      List.lookup sid (cleanupSessions now m st).sessions = none) := by
  constructor
  · exact ⟨rfl, rfl⟩
  · intro st now m sid r hnd hlk hidle
    unfold cleanupSessions
    exact lookup_filter_none sid _ r st.sessions hnd hlk (by simp [hidle])

/-- Witness for C9: three touches at times 10, 20, 30, and a sweep at time
3000 with a 30-minute threshold removing an idle session. -/
theorem session_ledger_behavior_witness :
    (activeSessions
        (touchSession 30 "s1" (touchSession 20 "s1" (touchSession 10 "s1" emptyIntegState))) = 1 ∧
      List.lookup "s1"
        (touchSession 30 "s1"
          (touchSession 20 "s1" (touchSession 10 "s1" emptyIntegState))).sessions
        = some { startTime := 10, queryCount := 3, lastActivity := 30 }) ∧
    List.lookup "s1"
      (cleanupSessions 3000 30
        { sessions := [("s1", { startTime := 0, queryCount := 1, lastActivity := 0 })],
          requestCount := 1 }).sessions = none :=
  ⟨(session_ledger_behavior 10 20 30).1,
   (session_ledger_behavior 10 20 30).2
     { sessions := [("s1", { startTime := 0, queryCount := 1, lastActivity := 0 })],
       requestCount := 1 }
     3000 30 "s1" { startTime := 0, queryCount := 1, lastActivity := 0 }
     (by decide) rfl (by decide)⟩

end MMMUT




